import Mathlib

/-!
Shallow embedding of the device-model core of the vesync integration
(vendored pyvesync client): the manager's device-list reconciliation
(`VeSync.process_devices` and its helpers), factory dispatch
(`VeSync.object_factory`, the switch family factory), the base device
constructor (`VeSyncBaseDevice.__init__`), the switch command methods
(`turn`, `indicator_light_turn`, `set_brightness`), and the manager's
login / polling entry points (`login`, `get_devices`, `update`).

Python values occurring in device records and API responses are embedded
as `PyVal` (JSON-like values plus Python `None`); dictionaries are
association lists with first-key-wins lookup.  A Python function that can
raise is embedded as an `Option`-returning function (`none` = an
exception escapes); HTTP traffic is made explicit: every network-calling
operation takes the parsed response of its (single) request as an
argument and reports the number of requests it issued.
-/

/-- Embedded Python value: the subset of values appearing in device
records and API responses (None, strings, integers, dicts, lists). -/
inductive PyVal where
  | pnone : PyVal
  | pstr : String → PyVal
  | pint : Int → PyVal
  | pdict : List (String × PyVal) → PyVal
  | plist : List PyVal → PyVal

mutual

/-- Structural equality on embedded Python values (Python `==`). -/
def PyVal.beq : PyVal → PyVal → Bool
  | PyVal.pnone, PyVal.pnone => true
  | PyVal.pstr a, PyVal.pstr b => a == b
  | PyVal.pint a, PyVal.pint b => a == b
  | PyVal.pdict a, PyVal.pdict b => PyVal.beqDict a b
  | PyVal.plist a, PyVal.plist b => PyVal.beqList a b
  | _, _ => false

/-- Pointwise equality of embedded dicts (entry lists). -/
def PyVal.beqDict : List (String × PyVal) → List (String × PyVal) → Bool
  | [], [] => true
  | (k, v) :: r, (k2, v2) :: r2 => k == k2 && PyVal.beq v v2 && PyVal.beqDict r r2
  | _, _ => false

/-- Pointwise equality of embedded lists. -/
def PyVal.beqList : List PyVal → List PyVal → Bool
  | [], [] => true
  | v :: r, v2 :: r2 => PyVal.beq v v2 && PyVal.beqList r r2
  | _, _ => false

end

/-- Python `x is None`. -/
def PyVal.isNone : PyVal → Bool
  | PyVal.pnone => true
  | _ => false

/-- Python truthiness of an embedded value. -/
def PyVal.truthy : PyVal → Bool
  | PyVal.pnone => false
  | PyVal.pstr s => !s.isEmpty
  | PyVal.pint n => n != 0
  | PyVal.pdict d => !d.isEmpty
  | PyVal.plist l => !l.isEmpty

/-- Embedded Python dict (association list, first key wins). -/
abbrev PyDict := List (String × PyVal)

/-- Lookup of a key (Python `d[k]` would raise on `none`). -/
def PyDict.find : PyDict → String → Option PyVal
  | [], _ => none
  | (k0, v0) :: r, k => if k0 == k then some v0 else PyDict.find r k

/-- Python `d.get(k, dflt)`. -/
def PyDict.getD (d : PyDict) (k : String) (dflt : PyVal) : PyVal :=
  (PyDict.find d k).getD dflt

/-- Python `d.get(k)` (defaults to `None`). -/
def PyDict.get (d : PyDict) (k : String) : PyVal :=
  PyDict.getD d k PyVal.pnone

/-- Python `k in d`. -/
def PyDict.hasKey (d : PyDict) (k : String) : Bool :=
  (PyDict.find d k).isSome

/-- Python `d[k] = v` (update in place, preserving entry order). -/
def PyDict.set : PyDict → String → PyVal → PyDict
  | [], k, v => [(k, v)]
  | (k0, v0) :: r, k, v => if k0 == k then (k0, v) :: r else (k0, v0) :: PyDict.set r k v

/-- Python `r.get(k, dflt)` applied to a value known to be a mapping at the
call site (all call sites are guarded by a successful code check). -/
def PyVal.getD : PyVal → String → PyVal → PyVal
  | PyVal.pdict d, k, dflt => PyDict.getD d k dflt
  | _, _, dflt => dflt

/-- Modelled from the spec: `helpers.py` is absent from `src`.  Spec section 3
lists the `device_family` enum members BULB, FAN, OUTLET, SWITCH, KITCHEN and
NOT_SUPPORTED (`EDeviceFamily` in the code). -/
inductive EDeviceFamily where
  | BULB
  | FAN
  | OUTLET
  | SWITCH
  | KITCHEN
  | NOT_SUPPORTED
deriving DecidableEq

/-- Modelled from the spec: `helpers.py` (with `Helpers.code_check`) is absent
from `src`.  Spec section 4.1: a response is "ok" only if it is a non-empty
mapping and its embedded status code equals the success code (0).  The
argument is the parsed response, `none` standing for a failed call
(Python `None`). -/
def code_check : Option PyVal → Bool
  | some (PyVal.pdict d) => !d.isEmpty && PyVal.beq (PyDict.get d "code") (PyVal.pint 0)
  | _ => false

/-- Status literal used throughout the device classes. -/
def STATUS_ON : String := "on"

/-- Status literal used throughout the device classes. -/
def STATUS_OFF : String := "off"

/-- Object state of `VeSyncBaseDevice` (vesyncbasedevice.py): the attributes
assigned by `__init__` (the transient `pid`/`manager` attributes and display
helpers are omitted; `details` is the per-device detail cache). -/
structure VeSyncBaseDevice where
  cid : PyVal
  device_name : PyVal
  device_image : PyVal
  connection_status : PyVal
  connection_type : PyVal
  device_type : PyVal
  type : PyVal
  uuid : PyVal
  config_module : PyVal
  mac_id : PyVal
  mode : PyVal
  speed : PyVal
  extension : PyVal
  current_firm_version : PyVal
  device_region : PyVal
  sub_device_no : PyVal
  device_status : PyVal
  device_family : EDeviceFamily
  details : PyDict

/-- Class-attribute defaults of `VeSyncBaseDevice`, i.e. the object state
left behind when `__init__` takes its `else` branch (record without a usable
`cid`): every attribute keeps its class default. -/
def defaultBaseDevice : VeSyncBaseDevice :=
  { cid := PyVal.pnone
    device_name := PyVal.pnone
    device_image := PyVal.pnone
    connection_status := PyVal.pnone
    connection_type := PyVal.pnone
    device_type := PyVal.pnone
    type := PyVal.pnone
    uuid := PyVal.pnone
    config_module := PyVal.pnone
    mac_id := PyVal.pnone
    mode := PyVal.pnone
    speed := PyVal.pnone
    extension := PyVal.pnone
    current_firm_version := PyVal.pnone
    device_region := PyVal.pnone
    sub_device_no := PyVal.pint 0
    device_status := PyVal.pnone
    device_family := EDeviceFamily.NOT_SUPPORTED
    details := [] }

/-- Embedding of `VeSyncBaseDevice.__init__` (vesyncbasedevice.py lines
85-119).  When the record carries a non-null `cid`, the identity and state
attributes are copied from the record; missing mandatory keys
(`deviceName`, `connectionStatus`, `deviceType`, `configModule`) raise
`KeyError` (`none`).  A record without a usable `cid` only logs and leaves
the class defaults in place.  Devices whose `connectionStatus` is not
"online" get `device_status` forced to "off"; otherwise `device_status` is
taken from the record's `deviceStatus`. -/
def mkBaseDevice (details : PyDict) (device_family : EDeviceFamily) :
    Option VeSyncBaseDevice :=
  if PyDict.hasKey details "cid" && !PyVal.isNone (PyDict.get details "cid") then
    match PyDict.find details "deviceName", PyDict.find details "connectionStatus",
        PyDict.find details "deviceType", PyDict.find details "configModule" with
    | some dn, some cs, some dt, some cm =>
      let speed0 := if !PyVal.beq (PyDict.get details "speed") (PyVal.pstr "") then
        PyDict.get details "speed" else PyVal.pnone
      let ext := PyDict.get details "extension"
      let speed1 := match ext with
        | PyVal.pdict e => PyDict.get e "fanSpeedLevel"
        | _ => speed0
      let mode1 := match ext with
        | PyVal.pdict e => PyDict.get e "mode"
        | _ => PyDict.get details "mode"
      some { cid := PyDict.get details "cid"
             device_name := dn
             device_image := PyDict.get details "deviceImg"
             connection_status := cs
             connection_type := PyDict.get details "connectionType"
             device_type := dt
             type := PyDict.get details "type"
             uuid := PyDict.get details "uuid"
             config_module := cm
             mac_id := PyDict.get details "macID"
             mode := mode1
             speed := speed1
             extension := ext
             current_firm_version := PyDict.get details "currentFirmVersion"
             device_region := PyDict.get details "deviceRegion"
             sub_device_no := PyDict.getD details "subDeviceNo" (PyVal.pint 0)
             device_status := if !PyVal.beq cs (PyVal.pstr "online") then
               PyVal.pstr STATUS_OFF else PyDict.get details "deviceStatus"
             device_family := device_family
             details := [] }
    | _, _, _, _ => none
  else
    some defaultBaseDevice

/-- Embedding of the `VeSyncBaseDevice.is_on` property
(`device_status == STATUS_ON`). -/
def VeSyncBaseDevice.is_on (d : VeSyncBaseDevice) : Bool :=
  PyVal.beq d.device_status (PyVal.pstr STATUS_ON)

/-- Model strings of `feature_dict` in vesyncswitch.py (the keys of the
static feature table). -/
def switch_model_keys : List String := ["ESWL01", "ESWL03", "ESWD16"]

/-- Embedding of `VeSyncSwitch.__init__` (vesyncswitch.py lines 77-83): the
base constructor with the SWITCH family, followed by the feature lookup
`feature_dict.get(self.device_type, {}).get('features')`, which raises
`KeyError` (`none`) when the device type is not a key of the table. -/
def mkVeSyncSwitch (details : PyDict) : Option VeSyncBaseDevice :=
  match mkBaseDevice details EDeviceFamily.SWITCH with
  | none => none
  | some b =>
    match b.device_type with
    | PyVal.pstr dt => if switch_model_keys.contains dt then some b else none
    | _ => none

/-- Object state added by `VeSyncDimmerSwitch.__init__` on top of the switch
base state: cached brightness, indicator-light status, RGB status and RGB
value. -/
structure DimmerState where
  brightness : PyVal
  indicator_light : PyVal
  rgb_status : PyVal
  rgb_value : PyDict

/-- Initial dimmer state set by `VeSyncDimmerSwitch.__init__`
(vesyncswitch.py lines 168-174). -/
def initDimmerState : DimmerState :=
  { brightness := PyVal.pint 0
    indicator_light := PyVal.pstr "unknown"
    rgb_status := PyVal.pstr "unknown"
    rgb_value := [("red", PyVal.pint 0), ("blue", PyVal.pint 0), ("green", PyVal.pint 0)] }

/-- A constructed device held in the manager's `_device_list`: a wall switch,
a dimmer switch, or a device of one of the families whose modules are not in
`src` (bulb, fan, kitchen, outlet), carried as its base state. -/
inductive Device where
  | plain : VeSyncBaseDevice → Device
  | wall : VeSyncBaseDevice → Device
  | dimmer : VeSyncBaseDevice → DimmerState → Device

/-- Base state of a constructed device. -/
def Device.base : Device → VeSyncBaseDevice
  | Device.plain b => b
  | Device.wall b => b
  | Device.dimmer b _ => b

/-- Device identity component `cid`. -/
def Device.cid (d : Device) : PyVal := (Device.base d).cid

/-- Device identity component `sub_device_no`. -/
def Device.sub_device_no (d : Device) : PyVal := (Device.base d).sub_device_no

/-- Family of a constructed device. -/
def Device.device_family (d : Device) : EDeviceFamily := (Device.base d).device_family

/-- Embedding of the switch-module `factory` (vesyncswitch.py lines
346-352): look the model up in `switch_modules` and construct the mapped
class; the bare `except` turns any lookup/construction exception into a
null result. -/
def switch_factory (module : PyVal) (details : PyDict) : Option Device :=
  match module with
  | PyVal.pstr "ESWL01" => (mkVeSyncSwitch details).map Device.wall
  | PyVal.pstr "ESWL03" => (mkVeSyncSwitch details).map Device.wall
  | PyVal.pstr "ESWD16" => (mkVeSyncSwitch details).map (fun b => Device.dimmer b initDimmerState)
  | _ => none

/-- Embedding of `VeSyncWallSwitch.turn` (vesyncswitch.py lines 144-157).
The argument `r` is the parsed response of the status-change request; the
last component counts HTTP requests issued. -/
def VeSyncWallSwitch.turn (b : VeSyncBaseDevice) (status : String)
    (r : Option PyVal) : VeSyncBaseDevice × Bool × Nat :=
  if status != STATUS_ON && status != STATUS_OFF then
    (b, false, 0)
  else if r.isSome && code_check r then
    ({ b with device_status := PyVal.pstr status }, true, 1)
  else
    (b, false, 1)

/-- Wrapper `turn_on` of the base class, specialised to the wall switch. -/
def VeSyncWallSwitch.turn_on (b : VeSyncBaseDevice) (r : Option PyVal) :
    VeSyncBaseDevice × Bool × Nat :=
  VeSyncWallSwitch.turn b STATUS_ON r

/-- Wrapper `turn_off` of the base class, specialised to the wall switch. -/
def VeSyncWallSwitch.turn_off (b : VeSyncBaseDevice) (r : Option PyVal) :
    VeSyncBaseDevice × Bool × Nat :=
  VeSyncWallSwitch.turn b STATUS_OFF r

/-- Embedding of `VeSyncDimmerSwitch.turn` (vesyncswitch.py lines 222-235);
same shape as the wall switch, acting on the dimmer's state pair. -/
def VeSyncDimmerSwitch.turn (b : VeSyncBaseDevice) (st : DimmerState)
    (status : String) (r : Option PyVal) :
    (VeSyncBaseDevice × DimmerState) × Bool × Nat :=
  if status != STATUS_ON && status != STATUS_OFF then
    ((b, st), false, 0)
  else if r.isSome && code_check r then
    (({ b with device_status := PyVal.pstr status }, st), true, 1)
  else
    ((b, st), false, 1)

/-- Embedding of `VeSyncDimmerSwitch.indicator_light_turn` (vesyncswitch.py
lines 237-251).  On a confirmed success it assigns `self.device_status`
(not the cached `_indicator_light` field). -/
def VeSyncDimmerSwitch.indicator_light_turn (b : VeSyncBaseDevice)
    (st : DimmerState) (status : String) (r : Option PyVal) :
    (VeSyncBaseDevice × DimmerState) × Bool × Nat :=
  if status != STATUS_ON && status != STATUS_OFF then
    ((b, st), false, 0)
  else if r.isSome && code_check r then
    (({ b with device_status := PyVal.pstr status }, st), true, 1)
  else
    ((b, st), false, 1)

/-- Embedding of `VeSyncDimmerSwitch.set_brightness` (vesyncswitch.py lines
305-319).  The guard is the source's own disjunction
`brightness > 0 or brightness <= 100`; the brightness argument is an
integer, so the `isinstance` conjunct holds. -/
def VeSyncDimmerSwitch.set_brightness (b : VeSyncBaseDevice) (st : DimmerState)
    (brightness : Int) (r : Option PyVal) :
    (VeSyncBaseDevice × DimmerState) × Bool × Nat :=
  if brightness > 0 || brightness ≤ 100 then
    if r.isSome && code_check r then
      ((b, { st with brightness := PyVal.pint brightness }), true, 1)
    else
      ((b, st), false, 1)
  else
    ((b, st), false, 0)

/-- Embedding of `VeSyncWallSwitch.get_details` (vesyncswitch.py lines
121-132): refresh status, active time and connection status from a
successful detail response. -/
def VeSyncWallSwitch.get_details (b : VeSyncBaseDevice) (r : Option PyVal) :
    VeSyncBaseDevice × Nat :=
  if r.isSome && code_check r then
    let rv := r.getD PyVal.pnone
    ({ b with device_status := PyVal.getD rv "deviceStatus" b.device_status
              details := PyDict.set b.details "active_time" (PyVal.getD rv "activeTime" (PyVal.pint 0))
              connection_status := PyVal.getD rv "connectionStatus" b.connection_status }, 1)
  else
    (b, 1)

/-- Embedding of `VeSyncDimmerSwitch.get_details` (vesyncswitch.py lines
176-190). -/
def VeSyncDimmerSwitch.get_details (b : VeSyncBaseDevice) (st : DimmerState)
    (r : Option PyVal) : (VeSyncBaseDevice × DimmerState) × Nat :=
  if r.isSome && code_check r then
    let rv := r.getD PyVal.pnone
    (({ b with device_status := PyVal.getD rv "deviceStatus" b.device_status
               details := PyDict.set b.details "active_time" (PyVal.getD rv "activeTime" (PyVal.pint 0))
               connection_status := PyVal.getD rv "connectionStatus" b.connection_status },
      { st with brightness := PyVal.getD rv "brightness" PyVal.pnone
                rgb_status := PyVal.getD rv "rgbStatus" PyVal.pnone
                rgb_value := []
                indicator_light := PyVal.getD rv "indicatorlightStatus" PyVal.pnone }), 1)
  else
    ((b, st), 1)

/-- Modelled from the spec: the bulb, fan, kitchen and outlet family modules
(vesyncbulb.py, vesyncfan.py, vesynckitchen.py, vesyncoutlet.py) are absent
from `src`.  Spec section 4.3: each family module has a static table of
vendor model strings and a `factory(model_string, raw_details, manager)`
that looks the model up in the table and constructs the corresponding class
of its family, returning a null result for unrecognized models, never
raising; spec section 4.2: construction requires a non-null `cid`, whose
absence is a construction failure (device not created).  The family's
static table is abstracted as the parameter `table`. -/
def modelled_family_factory (family : EDeviceFamily) (table : List String)
    (module : PyVal) (details : PyDict) : Option Device :=
  match module with
  | PyVal.pstr m =>
    if table.contains m then
      match mkBaseDevice details family with
      | some b => if PyVal.isNone b.cid then none else some (Device.plain b)
      | none => none
    else none
  | _ => none

/-- The static model tables of the four family modules missing from `src`,
abstracted (spec section 4.3 fixes their role, not their contents). -/
structure FamilyTables where
  bulb : List String
  fan : List String
  kitchen : List String
  outlet : List String

/-- The `FACTORIES` chain of vesync.py line 23, tried in order bulb, fan,
kitchen, outlet, switch, stopping at the first non-null device. -/
def try_factories (t : FamilyTables) (dev_type : PyVal) (details : PyDict) :
    Option Device :=
  match modelled_family_factory EDeviceFamily.BULB t.bulb dev_type details with
  | some d => some d
  | none =>
    match modelled_family_factory EDeviceFamily.FAN t.fan dev_type details with
    | some d => some d
    | none =>
      match modelled_family_factory EDeviceFamily.KITCHEN t.kitchen dev_type details with
      | some d => some d
      | none =>
        match modelled_family_factory EDeviceFamily.OUTLET t.outlet dev_type details with
        | some d => some d
        | none => switch_factory dev_type details

/-- Embedding of `VeSync.object_factory` (vesync.py lines 207-238): try each
family factory on the record's `deviceType` in the fixed order; the first
device returned is appended to `_device_list` and returned; with no match
the list is unchanged and no device is returned (only a log line). -/
def object_factory (t : FamilyTables) (device_list : List Device)
    (details : PyDict) : List Device × Option Device :=
  match try_factories t (PyDict.get details "deviceType") details with
  | some d => (device_list ++ [d], some d)
  | none => (device_list, none)

/-- Embedding of `VeSync.remove_dev_test` (vesync.py lines 146-164):
keep (`true`) a held device that has a falsy `cid` or whose `cid` appears in
some record of the new raw list.  When the device has a truthy `cid` and the
new list is empty, the function reads the loop variable `device_found`
before any iteration assigned it, raising `NameError` (`none`); the caller
only reaches this function with a non-empty list. -/
def remove_dev_test (device : Device) (new_list : List PyDict) : Option Bool :=
  if PyVal.truthy (Device.cid device) then
    if new_list.isEmpty then none
    else some (new_list.any (fun item =>
      PyDict.hasKey item "cid" && PyVal.beq (Device.cid device) (PyDict.get item "cid")))
  else some true

/-- Embedding of `VeSync.add_dev_test` (vesync.py lines 166-175): a record
carrying a `cid` is added (`true`) only if no held device matches it on
`(cid, subDeviceNo)`; a record without a `cid` key is always added. -/
def add_dev_test (device_list : List Device) (new_dev : PyDict) : Bool :=
  if PyDict.hasKey new_dev "cid" then
    !(device_list.any (fun dev =>
      PyVal.beq (Device.cid dev) (PyDict.get new_dev "cid") &&
      PyVal.beq (PyDict.getD new_dev "subDeviceNo" (PyVal.pint 0)) (Device.sub_device_no dev)))
  else true

/-- Filtering of `_device_list` by `remove_dev_test`, propagating the
exception case (Python list comprehension in `remove_old_devices`). -/
def filter_remove : List Device → List PyDict → Option (List Device)
  | [], _ => some []
  | d :: rest, devices =>
    match remove_dev_test d devices with
    | none => none
    | some b =>
      match filter_remove rest devices with
      | none => none
      | some r => some (if b then d :: r else r)

/-- Embedding of `VeSync.remove_old_devices` (vesync.py lines 177-184):
drop each held device for which `remove_dev_test` says remove. -/
def remove_old_devices (device_list : List Device) (devices : List PyDict) :
    Option (List Device) :=
  filter_remove device_list devices

/-- Loop state of `VeSync.set_dev_id`: the record objects by original
position (`recs`, mutated in place), the current value of the rebound
`devices` variable as positions into `recs` (`cur`), and the collected
removal indices (`dev_rem`). -/
structure SetDevIdState where
  recs : List PyDict
  cur : List Nat
  dev_rem : List Nat

/-- The list comprehension
`[i for j, i in enumerate(devices) if j not in dev_rem]`: positions are
taken in the current (possibly already shrunk) list, while `dev_rem` holds
indices of the original iteration. -/
def remove_positions (cur : List Nat) (dev_rem : List Nat) : List Nat :=
  ((cur.enum).filter (fun p => !dev_rem.contains p.1)).map (fun p => p.2)

/-- One iteration of the `set_dev_id` loop at original index `i`
(vesync.py lines 191-204): patch a missing `cid` from `macID` or `uuid`,
or mark the record for removal; then, since the filter statement is inside
the loop body, re-filter the current list whenever `dev_rem` is
non-empty. -/
def set_dev_id_step (st : SetDevIdState) (i : Nat) : SetDevIdState :=
  let d := st.recs.getD i []
  let st' :=
    if PyVal.isNone (PyDict.get d "cid") then
      if !PyVal.isNone (PyDict.get d "macID") then
        { st with recs := st.recs.set i (PyDict.set d "cid" (PyDict.get d "macID")) }
      else if !PyVal.isNone (PyDict.get d "uuid") then
        { st with recs := st.recs.set i (PyDict.set d "cid" (PyDict.get d "uuid")) }
      else
        { st with dev_rem := st.dev_rem ++ [i] }
    else st
  if st'.dev_rem.isEmpty then st'
  else { st' with cur := remove_positions st'.cur st'.dev_rem }

/-- Embedding of `VeSync.set_dev_id` (vesync.py lines 186-205). -/
def set_dev_id (devices : List PyDict) : List PyDict :=
  let final := (List.range devices.length).foldl set_dev_id_step
    { recs := devices, cur := List.range devices.length, dev_rem := [] }
  final.cur.map (fun i => final.recs.getD i [])

/-- The mandatory record keys checked in `process_devices`
(`detail_keys`, vesync.py line 260). -/
def has_detail_keys (d : PyDict) : Bool :=
  PyDict.hasKey d "deviceType" && PyDict.hasKey d "deviceName" && PyDict.hasKey d "deviceStatus"

/-- Embedding of `VeSync.process_devices` (vesync.py lines 240-267):
normalize ids, bail out on an empty list, drop held devices absent from the
new list, filter out records matching held identities, then reset
`_device_list` to empty and rebuild it from the surviving records that have
the mandatory detail keys.  Returns the new `_device_list` and the boolean
result. -/
def process_devices (t : FamilyTables) (device_list : List Device)
    (dev_list : List PyDict) : Option (List Device × Bool) :=
  let devices := set_dev_id dev_list
  if devices.isEmpty then some (device_list, false)
  else
    match (if device_list.length == 0 then some device_list
           else remove_old_devices device_list devices) with
    | none => none
    | some kept =>
      let devices2 := devices.filter (fun x => add_dev_test kept x)
      some (devices2.foldl (fun acc d =>
        if has_detail_keys d then (object_factory t acc d).1 else acc)
        ([] : List Device), true)

/-- Manager state (`VeSync`, vesync.py): credentials, session fields,
throttle state and the authoritative device list.  A credential that is not
a string is embedded as `none`; timestamps are integral seconds.  The
transient `in_process` flag (set and cleared within one `get_devices`
call) and logging configuration are omitted. -/
structure Manager where
  username : Option String
  password : Option String
  token : PyVal
  account_id : PyVal
  country_code : PyVal
  enabled : Bool
  update_interval : Int
  last_update_ts : Option Int
  device_list : List Device

/-- Default rate limit `API_RATE_LIMIT` (vesync.py line 18), the default
`update_interval`. -/
def API_RATE_LIMIT : Int := 30

/-- Embedding of `VeSync.login` (vesync.py lines 300-333).  `r` is the
parsed response of the login request; the result carries the new manager
state, the boolean result, and the number of HTTP requests issued.  The
`none` result is the exception escaping when the response's `result` member
is present but is not a mapping (`r.get('result').get(...)` fails). -/
def login (m : Manager) (r : Option PyVal) : Option (Manager × Bool × Nat) :=
  let user_check := match m.username with
    | some s => decide (0 < s.length)
    | none => false
  let pass_check := match m.password with
    | some s => decide (0 < s.length)
    | none => false
  if user_check = false then some (m, false, 0)
  else if pass_check = false then some (m, false, 0)
  else
    let has_result := match r with
      | some (PyVal.pdict d) => PyDict.hasKey d "result"
      | _ => false
    if code_check r && has_result then
      match r with
      | some (PyVal.pdict d) =>
        match PyDict.find d "result" with
        | some (PyVal.pdict res) =>
          some ({ m with token := PyDict.get res "token"
                         account_id := PyDict.get res "accountID"
                         country_code := PyDict.get res "countryCode"
                         enabled := true }, true, 1)
        | _ => none
      | _ => none
    else some (m, false, 1)

/-- Embedding of `VeSync.device_time_check` (vesync.py lines 335-340). -/
def device_time_check (m : Manager) (now : Int) : Bool :=
  m.last_update_ts.isNone || decide (now - m.last_update_ts.getD 0 > m.update_interval)

/-- Conversion of the `r['result']['list']` payload to a list of records;
`none` when the payload is not a list of mappings (iterating it in
`set_dev_id` would raise). -/
def as_record_list : List PyVal → Option (List PyDict)
  | [] => some []
  | PyVal.pdict d :: rest => (as_record_list rest).map (fun l => d :: l)
  | _ :: _ => none

/-- Embedding of `VeSync.get_devices` (vesync.py lines 269-298): no request
when the manager is not enabled; otherwise one device-list request is
issued, and a truthy response passing the code check with a
`result.list` member is handed to `process_devices`.  `none` embeds an
exception escaping (a `result` member of an unexpected shape, or a
`list` member that is not a list of records). -/
def get_devices (t : FamilyTables) (m : Manager) (r : Option PyVal) :
    Option (Manager × Bool × Nat) :=
  if !m.enabled then some (m, false, 0)
  else
    match r with
    | some (PyVal.pdict d) =>
      if PyVal.truthy (PyVal.pdict d) && code_check (some (PyVal.pdict d)) then
        match PyDict.find d "result" with
        | some (PyVal.pdict res) =>
          match PyDict.find res "list" with
          | some (PyVal.plist lv) =>
            match as_record_list lv with
            | some dev_list =>
              match process_devices t m.device_list dev_list with
              | some (dl, pr) => some ({ m with device_list := dl }, pr, 1)
              | none => none
            | none => none
          | some _ => none
          | none => some (m, false, 1)
        | some _ => none
        | none => some (m, false, 1)
      else some (m, false, 1)
    | _ => some (m, false, 1)

/-- Modelled from the spec: the detail-fetch of the four family modules
absent from `src`.  Spec section 4.4 step 4 and section 7: a per-device
detail fetch refreshes live state fields from a successful response and is
"no state change" on any failure; the refreshed fields follow the common
pattern of the switch classes (status and connection from the response). -/
def plain_get_details (b : VeSyncBaseDevice) (r : Option PyVal) :
    VeSyncBaseDevice × Nat :=
  if r.isSome && code_check r then
    let rv := r.getD PyVal.pnone
    ({ b with device_status := PyVal.getD rv "deviceStatus" b.device_status
              connection_status := PyVal.getD rv "connectionStatus" b.connection_status }, 1)
  else
    (b, 1)

/-- Per-device `update()` (each device's `get_details`), with `r` the parsed
response of the device's detail request. -/
def Device.update : Device → Option PyVal → Device
  | Device.plain b, r => Device.plain (plain_get_details b r).1
  | Device.wall b, r => Device.wall (VeSyncWallSwitch.get_details b r).1
  | Device.dimmer b st, r =>
    let res := VeSyncDimmerSwitch.get_details b st r
    Device.dimmer res.1.1 res.1.2

/-- Embedding of `VeSync.update_all_devices` (vesync.py lines 367-370):
run each held device's detail fetch; `rs` supplies the per-device
responses by position. -/
def update_all_devices (devs : List Device) (rs : Nat → Option PyVal) :
    List Device :=
  (devs.enum).map (fun p => Device.update p.2 (rs p.1))

/-- Embedding of `VeSync.update` (vesync.py lines 342-360).  `tc` is the
clock reading of the throttle check, `te` the one stored afterwards
(`time.time()` is read twice); `r` is the device-list response and `rs`
the per-device detail responses.  The returned number counts device-list
fetches (the `get_devices` request). -/
def update (t : FamilyTables) (m : Manager) (tc te : Int) (r : Option PyVal)
    (rs : Nat → Option PyVal) : Option (Manager × Nat) :=
  if device_time_check m tc then
    if !m.enabled then some (m, 0)
    else
      match get_devices t m r with
      | none => none
      | some (m1, _, n) =>
        some ({ m1 with device_list := update_all_devices m1.device_list rs
                        last_update_ts := some te }, n)
  else some (m, 0)

/-- Family tables instance with all four absent-module tables empty. -/
def tbl0 : FamilyTables := { bulb := [], fan := [], kitchen := [], outlet := [] }

/-- A complete wall-switch record as returned by the device-list call. -/
def recA : PyDict :=
  [("cid", PyVal.pstr "abc"), ("deviceType", PyVal.pstr "ESWL01"),
   ("deviceName", PyVal.pstr "Switch 1"), ("deviceStatus", PyVal.pstr "on"),
   ("connectionStatus", PyVal.pstr "online"), ("configModule", PyVal.pstr "InwallswitchUS")]

/-- A poll returning exactly the record `recA`. -/
def pollA : List PyDict := [recA]

/-- The device set held after processing `pollA` against an empty set. -/
def heldA : List Device := ((process_devices tbl0 [] pollA).getD ([], false)).1

/-- A minimal successful API response. -/
def okResp : PyVal := PyVal.pdict [("code", PyVal.pint 0)]

/-- A successful base construction either took the no-cid branch (class
defaults) or copied identity, family and status fields from the record,
with the offline forcing of `device_status`. -/
theorem mkBaseDevice_some_cases (details : PyDict) (fam : EDeviceFamily)
    (b : VeSyncBaseDevice) (h : mkBaseDevice details fam = some b) :
    b = defaultBaseDevice ∨
    (PyVal.isNone b.cid = false ∧
     b.cid = PyDict.get details "cid" ∧
     b.sub_device_no = PyDict.getD details "subDeviceNo" (PyVal.pint 0) ∧
     b.device_family = fam ∧
     PyDict.find details "deviceType" = some b.device_type ∧
     PyDict.find details "connectionStatus" = some b.connection_status ∧
     b.device_status = (if !PyVal.beq b.connection_status (PyVal.pstr "online")
       then PyVal.pstr STATUS_OFF else PyDict.get details "deviceStatus")) := by
  unfold mkBaseDevice at h
  split at h
  · rename_i hcid
    split at h
    · rename_i dn cs dt cm hdn hcs hdt hcm
      injection h with h
      subst h
      simp only [Bool.and_eq_true, Bool.not_eq_true'] at hcid
      exact Or.inr ⟨hcid.2, rfl, rfl, rfl, hdt.symm ▸ rfl, hcs.symm ▸ rfl, rfl⟩
    · exact absurd h (by simp)
  · injection h with h
    exact Or.inl h.symm

/-- A device that the switch base constructor accepts carries the record's
identity, the SWITCH family, and a non-null cid. -/
theorem mkVeSyncSwitch_identity (details : PyDict) (b : VeSyncBaseDevice)
    (h : mkVeSyncSwitch details = some b) :
    PyVal.isNone b.cid = false ∧
    b.cid = PyDict.get details "cid" ∧
    b.sub_device_no = PyDict.getD details "subDeviceNo" (PyVal.pint 0) ∧
    b.device_family = EDeviceFamily.SWITCH := by
  unfold mkVeSyncSwitch at h
  split at h
  · exact absurd h (by simp)
  · rename_i b0 hmk
    split at h
    · rename_i dt hdt
      split at h
      · injection h with h
        subst h
        rcases mkBaseDevice_some_cases details EDeviceFamily.SWITCH b0 hmk with hd | hok
        · rw [hd] at hdt
          exact absurd hdt (by simp [defaultBaseDevice])
        · exact ⟨hok.1, hok.2.1, hok.2.2.1, hok.2.2.2.1⟩
      · exact absurd h (by simp)
    · exact absurd h (by simp)

/-- A device returned by the switch family factory carries the record's
identity and the SWITCH family. -/
theorem switch_factory_identity (module : PyVal) (details : PyDict) (d : Device)
    (h : switch_factory module details = some d) :
    PyVal.isNone (Device.cid d) = false ∧
    Device.cid d = PyDict.get details "cid" ∧
    Device.sub_device_no d = PyDict.getD details "subDeviceNo" (PyVal.pint 0) ∧
    Device.device_family d = EDeviceFamily.SWITCH := by
  unfold switch_factory at h
  split at h <;>
    first
      | (rw [Option.map_eq_some'] at h
         obtain ⟨b, hb, hd⟩ := h
         subst hd
         exact mkVeSyncSwitch_identity details b hb)
      | exact absurd h (by simp)

/-- A device returned by a modelled family factory carries the record's
identity and the factory's family. -/
theorem modelled_family_factory_identity (fam : EDeviceFamily)
    (table : List String) (module : PyVal) (details : PyDict) (d : Device)
    (h : modelled_family_factory fam table module details = some d) :
    PyVal.isNone (Device.cid d) = false ∧
    Device.cid d = PyDict.get details "cid" ∧
    Device.sub_device_no d = PyDict.getD details "subDeviceNo" (PyVal.pint 0) ∧
    Device.device_family d = fam := by
  unfold modelled_family_factory at h
  split at h
  · rename_i m
    split at h
    · split at h
      · rename_i b hmk
        split at h
        · exact absurd h (by simp)
        · rename_i hnn
          injection h with h
          subst h
          rcases mkBaseDevice_some_cases details fam b hmk with hd | hok
          · subst hd
            exact absurd rfl hnn
          · exact ⟨Bool.of_not_eq_true hnn, hok.2.1, hok.2.2.1, hok.2.2.2.1⟩
      · exact absurd h (by simp)
    · exact absurd h (by simp)
  · exact absurd h (by simp)

/-- A device produced by the factory chain carries its record's identity. -/
theorem try_factories_identity (t : FamilyTables) (dev_type : PyVal)
    (details : PyDict) (d : Device)
    (h : try_factories t dev_type details = some d) :
    Device.cid d = PyDict.get details "cid" ∧
    Device.sub_device_no d = PyDict.getD details "subDeviceNo" (PyVal.pint 0) := by
  unfold try_factories at h
  split at h
  · rename_i hb
    injection h with h; subst h
    have := modelled_family_factory_identity _ _ _ _ _ hb
    exact ⟨this.2.1, this.2.2.1⟩
  · split at h
    · rename_i hb
      injection h with h; subst h
      have := modelled_family_factory_identity _ _ _ _ _ hb
      exact ⟨this.2.1, this.2.2.1⟩
    · split at h
      · rename_i hb
        injection h with h; subst h
        have := modelled_family_factory_identity _ _ _ _ _ hb
        exact ⟨this.2.1, this.2.2.1⟩
      · split at h
        · rename_i hb
          injection h with h; subst h
          have := modelled_family_factory_identity _ _ _ _ _ hb
          exact ⟨this.2.1, this.2.2.1⟩
        · have := switch_factory_identity _ _ _ h
          exact ⟨this.2.1, this.2.2.1⟩

/-- `object_factory` either leaves the list unchanged or appends one device
built from the record it was given. -/
theorem object_factory_cases (t : FamilyTables) (acc : List Device)
    (details : PyDict) :
    (object_factory t acc details).1 = acc ∨
    ∃ d, (object_factory t acc details).1 = acc ++ [d] ∧
      Device.cid d = PyDict.get details "cid" ∧
      Device.sub_device_no d = PyDict.getD details "subDeviceNo" (PyVal.pint 0) := by
  unfold object_factory
  rcases hf : try_factories t (PyDict.get details "deviceType") details with _ | d
  · exact Or.inl rfl
  · exact Or.inr ⟨d, rfl, try_factories_identity _ _ _ _ hf⟩

/-- Every device present after the rebuild loop of `process_devices` was
constructed from one of the surviving records, and therefore carries the
identity of a record of the processed list. -/
theorem mem_build_fold (t : FamilyTables) (recs : List PyDict) (l : List PyDict) :
    ∀ acc : List Device,
      (∀ r ∈ l, r ∈ recs) →
      (∀ d ∈ acc, ∃ rec ∈ recs, Device.cid d = PyDict.get rec "cid" ∧
        Device.sub_device_no d = PyDict.getD rec "subDeviceNo" (PyVal.pint 0)) →
      ∀ d ∈ l.foldl (fun acc d =>
          if has_detail_keys d then (object_factory t acc d).1 else acc) acc,
        ∃ rec ∈ recs, Device.cid d = PyDict.get rec "cid" ∧
          Device.sub_device_no d = PyDict.getD rec "subDeviceNo" (PyVal.pint 0) := by
  induction l with
  | nil =>
    intro acc _ hacc d hd
    exact hacc d (by simpa using hd)
  | cons r rest ih =>
    intro acc hl hacc d hd
    simp only [List.foldl_cons] at hd
    refine ih _ (fun x hx => hl x (List.mem_cons_of_mem _ hx)) ?_ d hd
    intro d' hd'
    by_cases hk : has_detail_keys r = true
    · rw [if_pos hk] at hd'
      rcases object_factory_cases t acc r with hc | ⟨dn, hcons, hcid, hsub⟩
      · rw [hc] at hd'
        exact hacc d' hd'
      · rw [hcons] at hd'
        rcases List.mem_append.mp hd' with hmem | hmem
        · exact hacc d' hmem
        · have hdn : d' = dn := by simpa using hmem
          subst hdn
          exact ⟨r, hl r (List.mem_cons_self _ _), hcid, hsub⟩
    · rw [if_neg hk] at hd'
      exact hacc d' hd'

/-- With a non-empty record list, `remove_dev_test` never reaches the
unassigned-variable exception, so `remove_old_devices` returns a list. -/
theorem filter_remove_isSome (devices : List PyDict)
    (hne : devices.isEmpty = false) (held : List Device) :
    ∃ kept, filter_remove held devices = some kept := by
  induction held with
  | nil => exact ⟨[], rfl⟩
  | cons d rest ih =>
    obtain ⟨r, hr⟩ := ih
    have hd : ∃ b, remove_dev_test d devices = some b := by
      unfold remove_dev_test
      by_cases ht : PyVal.truthy (Device.cid d) = true
      · rw [if_pos ht, if_neg (by simp [hne])]
        exact ⟨_, rfl⟩
      · rw [if_neg ht]
        exact ⟨true, rfl⟩
    obtain ⟨b, hb⟩ := hd
    refine ⟨if b then d :: r else r, ?_⟩
    unfold filter_remove
    rw [hb, hr]

/-- C1: the claim says that when a raw record's identity matches a held
device, `process_devices` constructs no new object for that identity and the
existing device object remains in the held set.  The code violates the
second half: after removing matched records from the candidate list it
resets `_device_list` to empty and rebuilds it only from the surviving
records, so the refreshed device disappears.  Concretely, processing the
poll `pollA` against an empty set yields one held device, and processing the
very same poll again yields a result of `true` with an empty device set. -/
theorem C1_refresh_discards_held_device :
    heldA.length = 1 ∧ process_devices tbl0 heldA pollA = some ([], true) :=
  ⟨rfl, rfl⟩

/-- C2 counterexample: with the empty list as the second poll (the empty set
is a strict subset of `pollA`'s identities), `process_devices` returns
`false` early and keeps the stale device, so the device with cid "abc",
absent from the second poll, is still held afterwards. -/
theorem C2_empty_second_poll_keeps_stale_device :
    heldA.map Device.cid = [PyVal.pstr "abc"] ∧
    process_devices tbl0 heldA [] = some (heldA, false) :=
  ⟨rfl, rfl⟩

/-- C2 amended: provided the second poll's normalized record list is
non-empty, every device held after the second poll carries the identity of
one of the second poll's normalized records; hence every previously held
device whose identity is absent from the second poll's list (in particular
under the claim's strict-subset premise) is no longer held. -/
theorem C2_nonempty_second_poll_removes_absent_devices
    (t : FamilyTables) (held : List Device) (poll2 : List PyDict)
    (h : (set_dev_id poll2).isEmpty = false) :
    ∃ res, process_devices t held poll2 = some (res, true) ∧
      ∀ d ∈ res, ∃ rec ∈ set_dev_id poll2,
        Device.cid d = PyDict.get rec "cid" ∧
        Device.sub_device_no d = PyDict.getD rec "subDeviceNo" (PyVal.pint 0) := by
  unfold process_devices
  rw [if_neg (by simp [h])]
  rcases hif : (if held.length == 0 then some held
      else remove_old_devices held (set_dev_id poll2)) with _ | kept
  · exfalso
    by_cases hlen : (held.length == 0) = true
    · rw [if_pos hlen] at hif
      cases hif
    · rw [if_neg hlen] at hif
      obtain ⟨kept, hk⟩ := filter_remove_isSome (set_dev_id poll2) h held
      unfold remove_old_devices at hif
      rw [hk] at hif
      cases hif
  · refine ⟨_, rfl, ?_⟩
    intro d hd
    exact mem_build_fold t (set_dev_id poll2) _ _
      (fun r hr => List.mem_of_mem_filter hr) (by simp) d hd

/-- C2 witness: the amended statement instantiated at the concrete poll
`pollA` and the held set it produces. -/
theorem C2_nonempty_second_poll_removes_absent_devices_witness :
    (set_dev_id pollA).isEmpty = false ∧
    ∃ res, process_devices tbl0 heldA pollA = some (res, true) ∧
      ∀ d ∈ res, ∃ rec ∈ set_dev_id pollA,
        Device.cid d = PyDict.get rec "cid" ∧
        Device.sub_device_no d = PyDict.getD rec "subDeviceNo" (PyVal.pint 0) :=
  ⟨rfl, C2_nonempty_second_poll_removes_absent_devices tbl0 heldA pollA rfl⟩

/-- C3: the claim says `set_dev_id` keeps (in order) every record that has
at least one of `cid`, `macID`, `uuid` and drops exactly the records that
have none.  The code re-applies its removal filter inside the loop, so once
one unidentifiable record has been dropped, the filter removes records at
the collected original indices from the already-shrunk list again on each
following iteration.  Concretely, for a list whose first record has no
identifier and whose second record has a `cid`, the identifiable second
record is dropped too and the function returns the empty list. -/
theorem C3_set_dev_id_drops_identified_record :
    set_dev_id [[("deviceName", PyVal.pstr "ghost")], [("cid", PyVal.pstr "b")]] = [] :=
  rfl

/-- One `get_devices` call issues at most one device-list request. -/
theorem get_devices_count (t : FamilyTables) (m m' : Manager) (r : Option PyVal)
    (pr : Bool) (n : Nat) (h : get_devices t m r = some (m', pr, n)) : n ≤ 1 := by
  unfold get_devices at h
  repeat' split at h
  all_goals cases h
  all_goals omega

/-- On an enabled manager, `get_devices` issues exactly one device-list
request and only ever rewrites the device list: the session and throttle
fields survive unchanged. -/
theorem get_devices_shape (t : FamilyTables) (m m' : Manager) (r : Option PyVal)
    (pr : Bool) (n : Nat) (hen : m.enabled = true)
    (h : get_devices t m r = some (m', pr, n)) :
    n = 1 ∧ m'.enabled = true ∧ m'.update_interval = m.update_interval := by
  unfold get_devices at h
  rw [hen] at h
  simp only [Bool.not_true] at h
  rw [if_neg (by simp)] at h
  repeat' split at h
  all_goals cases h
  all_goals first
    | exact ⟨rfl, rfl, rfl⟩
    | exact ⟨rfl, hen, rfl⟩

/-- One `update` call issues at most one device-list request. -/
theorem update_count (t : FamilyTables) (m : Manager) (tc te : Int)
    (r : Option PyVal) (rs : Nat → Option PyVal) (m' : Manager) (n : Nat)
    (h : update t m tc te r rs = some (m', n)) : n ≤ 1 := by
  unfold update at h
  split at h
  · split at h
    · simp only [Option.some.injEq, Prod.mk.injEq] at h
      obtain ⟨h1, h2⟩ := h
      omega
    · rcases hg : get_devices t m r with _ | ⟨mg, prg⟩
      · rw [hg] at h
        cases h
      · rcases prg with ⟨pr, ng⟩
        rw [hg] at h
        simp only [Option.some.injEq, Prod.mk.injEq] at h
        obtain ⟨h1, h2⟩ := h
        have := get_devices_count t m mg r pr ng hg
        omega
  · simp only [Option.some.injEq, Prod.mk.injEq] at h
    obtain ⟨h1, h2⟩ := h
    omega

/-- C4: on a logged-in manager, two consecutive `update` calls perform at
most one device-list fetch when the second call's throttle check happens
within `update_interval` seconds of the timestamp stored by the first call
(which is taken after the first call's fetch). -/
theorem C4_second_update_within_interval_does_not_refetch
    (t : FamilyTables) (m m1 m2 : Manager) (tc1 te1 tc2 te2 : Int)
    (r1 r2 : Option PyVal) (rs1 rs2 : Nat → Option PyVal) (n1 n2 : Nat)
    (hen : m.enabled = true)
    (h1 : update t m tc1 te1 r1 rs1 = some (m1, n1))
    (h2 : update t m1 tc2 te2 r2 rs2 = some (m2, n2))
    (hint : tc2 - te1 ≤ m.update_interval) :
    n1 + n2 ≤ 1 := by
  unfold update at h1
  by_cases hc1 : device_time_check m tc1 = true
  · rw [if_pos hc1, hen] at h1
    simp only [Bool.not_true] at h1
    rw [if_neg (by simp)] at h1
    rcases hg : get_devices t m r1 with _ | ⟨mg, prg⟩
    · rw [hg] at h1
      cases h1
    · rcases prg with ⟨pr, ng⟩
      rw [hg] at h1
      simp only [Option.some.injEq, Prod.mk.injEq] at h1
      obtain ⟨hm1, hn1⟩ := h1
      obtain ⟨hng, hgen, hgint⟩ := get_devices_shape t m mg r1 pr ng hen hg
      have hts : m1.last_update_ts = some te1 := by rw [← hm1]
      have hui : m1.update_interval = m.update_interval := by
        rw [← hm1]
        exact hgint
      have hdt2 : device_time_check m1 tc2 = false := by
        unfold device_time_check
        rw [hts, hui]
        simp only [Option.isNone_some, Bool.false_or, Option.getD_some]
        rw [decide_eq_false_iff_not]
        omega
      unfold update at h2
      rw [if_neg (by simp [hdt2])] at h2
      simp only [Option.some.injEq, Prod.mk.injEq] at h2
      obtain ⟨hm2, hn2⟩ := h2
      omega
  · rw [if_neg hc1] at h1
    simp only [Option.some.injEq, Prod.mk.injEq] at h1
    obtain ⟨hm1, hn1⟩ := h1
    have hle := update_count t m1 tc2 te2 r2 rs2 m2 n2 h2
    omega

/-- A modelled family factory rejects a model string missing from its
table. -/
theorem modelled_family_factory_none (fam : EDeviceFamily) (table : List String)
    (m : String) (details : PyDict) (h : table.contains m = false) :
    modelled_family_factory fam table (PyVal.pstr m) details = none := by
  have h' : ¬m ∈ table := by simpa using h
  simp [modelled_family_factory, h']

/-- The switch factory rejects a model string missing from its static
table. -/
theorem switch_factory_unknown (m : String) (details : PyDict)
    (h : switch_model_keys.contains m = false) :
    switch_factory (PyVal.pstr m) details = none := by
  unfold switch_factory
  split
  · rename_i heq
    rw [show m = "ESWL01" from by injection heq] at h
    exact absurd h (by decide)
  · rename_i heq
    rw [show m = "ESWL03" from by injection heq] at h
    exact absurd h (by decide)
  · rename_i heq
    rw [show m = "ESWD16" from by injection heq] at h
    exact absurd h (by decide)
  · rfl

/-- C5: `object_factory` consults the family factories in the fixed order
bulb, fan, kitchen, outlet, switch.  For the model string "ESWL01", known
to the switch table and (by hypothesis) to none of the other family
tables, any record the switch factory accepts is returned with
`device_family` SWITCH and appended to the list; a model string known to
no family table yields no device at all (the embedding is a total
function, so no exception is raised either). -/
theorem C5_object_factory_dispatch :
    (∀ (t : FamilyTables) (l : List Device) (details : PyDict) (d : Device),
      PyDict.get details "deviceType" = PyVal.pstr "ESWL01" →
      t.bulb.contains "ESWL01" = false →
      t.fan.contains "ESWL01" = false →
      t.kitchen.contains "ESWL01" = false →
      t.outlet.contains "ESWL01" = false →
      switch_factory (PyVal.pstr "ESWL01") details = some d →
      object_factory t l details = (l ++ [d], some d) ∧
      Device.device_family d = EDeviceFamily.SWITCH) ∧
    (∀ (t : FamilyTables) (l : List Device) (details : PyDict) (mstr : String),
      PyDict.get details "deviceType" = PyVal.pstr mstr →
      t.bulb.contains mstr = false →
      t.fan.contains mstr = false →
      t.kitchen.contains mstr = false →
      t.outlet.contains mstr = false →
      switch_model_keys.contains mstr = false →
      object_factory t l details = (l, none)) := by
  constructor
  · intro t l details d hdt hb hf hk ho hsw
    have htry : try_factories t (PyVal.pstr "ESWL01") details = some d := by
      simp only [try_factories,
        modelled_family_factory_none EDeviceFamily.BULB t.bulb "ESWL01" details hb,
        modelled_family_factory_none EDeviceFamily.FAN t.fan "ESWL01" details hf,
        modelled_family_factory_none EDeviceFamily.KITCHEN t.kitchen "ESWL01" details hk,
        modelled_family_factory_none EDeviceFamily.OUTLET t.outlet "ESWL01" details ho]
      exact hsw
    refine ⟨?_, (switch_factory_identity _ _ _ hsw).2.2.2⟩
    simp only [object_factory, hdt, htry]
  · intro t l details mstr hdt hb hf hk ho hsw
    have htry : try_factories t (PyVal.pstr mstr) details = none := by
      simp only [try_factories,
        modelled_family_factory_none EDeviceFamily.BULB t.bulb mstr details hb,
        modelled_family_factory_none EDeviceFamily.FAN t.fan mstr details hf,
        modelled_family_factory_none EDeviceFamily.KITCHEN t.kitchen mstr details hk,
        modelled_family_factory_none EDeviceFamily.OUTLET t.outlet mstr details ho]
      exact switch_factory_unknown mstr details hsw
    simp only [object_factory, hdt, htry]

/-- The wall-switch device built from `recA`. -/
def devA : Device :=
  (switch_factory (PyVal.pstr "ESWL01") recA).getD (Device.plain defaultBaseDevice)

/-- A well-formed record whose model string is known to no family. -/
def recX : PyDict :=
  [("cid", PyVal.pstr "x1"), ("deviceType", PyVal.pstr "XYZ99"),
   ("deviceName", PyVal.pstr "Mystery"), ("deviceStatus", PyVal.pstr "on"),
   ("connectionStatus", PyVal.pstr "online"), ("configModule", PyVal.pstr "Unknown")]

/-- C5 witness: the dispatch statement instantiated at the wall-switch
record `recA` and at the unknown-model record `recX`. -/
theorem C5_object_factory_dispatch_witness :
    object_factory tbl0 [] recA = ([devA], some devA) ∧
    Device.device_family devA = EDeviceFamily.SWITCH ∧
    object_factory tbl0 [] recX = ([], none) :=
  ⟨(C5_object_factory_dispatch.1 tbl0 [] recA devA rfl rfl rfl rfl rfl rfl).1,
   (C5_object_factory_dispatch.1 tbl0 [] recA devA rfl rfl rfl rfl rfl rfl).2,
   C5_object_factory_dispatch.2 tbl0 [] recX "XYZ99" rfl rfl rfl rfl rfl rfl⟩

/-- The literal example record of the spec: it carries no `configModule`
entry. -/
def exampleRec : PyDict :=
  [("cid", PyVal.pstr "abc"), ("deviceType", PyVal.pstr "ESWL01"),
   ("deviceName", PyVal.pstr "Switch 1"), ("deviceStatus", PyVal.pstr "on"),
   ("connectionStatus", PyVal.pstr "online")]

/-- The record `recA` with its connection status switched to "offline". -/
def recAoff : PyDict := PyDict.set recA "connectionStatus" (PyVal.pstr "offline")

/-- C6 counterexample: the spec's literal example record yields no
wall-switch device at all — the base constructor indexes
`details['configModule']`, which the record lacks, so construction raises
and the factory swallows the exception into a null result.  In particular
the record does not yield a device with `is_on == True`. -/
theorem C6_example_record_constructs_no_device :
    switch_factory (PyVal.pstr "ESWL01") exampleRec = none ∧
    object_factory tbl0 [] exampleRec = ([], none) :=
  ⟨rfl, rfl⟩

/-- C6 amended: for every record from which the base constructor builds a
device with a usable `cid` (which requires the mandatory keys including
`configModule`), a connection status other than "online" forces
`device_status` to "off" and `is_on` to false regardless of
`deviceStatus`, while an "online" connection status copies `device_status`
from the record.  The spec's example record behaves as claimed once a
`configModule` entry is added (`recA`): online yields `is_on = true`,
offline yields `is_on = false`. -/
theorem C6_offline_forced_off_amended :
    (∀ (details : PyDict) (fam : EDeviceFamily) (b : VeSyncBaseDevice),
      mkBaseDevice details fam = some b →
      PyVal.isNone b.cid = false →
      (PyVal.beq b.connection_status (PyVal.pstr "online") = false →
        b.device_status = PyVal.pstr STATUS_OFF ∧ VeSyncBaseDevice.is_on b = false) ∧
      (b.connection_status = PyVal.pstr "online" →
        b.device_status = PyDict.get details "deviceStatus")) ∧
    (switch_factory (PyVal.pstr "ESWL01") recA).map
      (fun d => VeSyncBaseDevice.is_on (Device.base d)) = some true ∧
    (switch_factory (PyVal.pstr "ESWL01") recAoff).map
      (fun d => VeSyncBaseDevice.is_on (Device.base d)) = some false := by
  refine ⟨?_, rfl, rfl⟩
  intro details fam b hmk hcid
  rcases mkBaseDevice_some_cases details fam b hmk with hd | hok
  · rw [hd] at hcid
    exact absurd hcid (by simp [defaultBaseDevice, PyVal.isNone])
  · obtain ⟨-, -, -, -, -, -, hstatus⟩ := hok
    constructor
    · intro hoff
      rw [hoff] at hstatus
      simp only [Bool.not_false, if_true] at hstatus
      refine ⟨hstatus, ?_⟩
      unfold VeSyncBaseDevice.is_on
      rw [hstatus]
      decide
    · intro hon
      rw [hon, show PyVal.beq (PyVal.pstr "online") (PyVal.pstr "online") = true from
        by decide] at hstatus
      simpa using hstatus

/-- The base device built from the offline record `recAoff`. -/
def bOff : VeSyncBaseDevice :=
  (mkBaseDevice recAoff EDeviceFamily.SWITCH).getD defaultBaseDevice

/-- C6 witness: the amended statement instantiated at the offline record
`recAoff`. -/
theorem C6_offline_forced_off_amended_witness :
    mkBaseDevice recAoff EDeviceFamily.SWITCH = some bOff ∧
    PyVal.isNone bOff.cid = false ∧
    PyVal.beq bOff.connection_status (PyVal.pstr "online") = false ∧
    bOff.device_status = PyVal.pstr STATUS_OFF ∧
    VeSyncBaseDevice.is_on bOff = false :=
  ⟨rfl, rfl, rfl,
   (C6_offline_forced_off_amended.1 recAoff EDeviceFamily.SWITCH bOff rfl rfl).1 rfl⟩

/-- The base device state built from `recA`. -/
def bA : VeSyncBaseDevice :=
  (mkBaseDevice recA EDeviceFamily.SWITCH).getD defaultBaseDevice

/-- C7: for both switch classes, `turn` with a valid status performs exactly
one HTTP round trip and writes the cached `device_status` if and only if the
response is non-null and passes the code check, returning true; on a
reported failure it returns false, leaves the device state unchanged, and a
subsequent `is_on` read reflects the old state.  `turn_on`/`turn_off` are
definitional wrappers of `turn`. -/
theorem C7_turn_updates_cache_only_on_success :
    (∀ (b b' : VeSyncBaseDevice) (status : String) (r : Option PyVal)
       (ok : Bool) (n : Nat),
      status = STATUS_ON ∨ status = STATUS_OFF →
      VeSyncWallSwitch.turn b status r = (b', ok, n) →
      n = 1 ∧ (ok = true ↔ (r.isSome && code_check r) = true) ∧
      (ok = true → b'.device_status = PyVal.pstr status) ∧
      (ok = false → b' = b ∧ VeSyncBaseDevice.is_on b' = VeSyncBaseDevice.is_on b)) ∧
    (∀ (b b' : VeSyncBaseDevice) (st st' : DimmerState) (status : String)
       (r : Option PyVal) (ok : Bool) (n : Nat),
      status = STATUS_ON ∨ status = STATUS_OFF →
      VeSyncDimmerSwitch.turn b st status r = ((b', st'), ok, n) →
      n = 1 ∧ (ok = true ↔ (r.isSome && code_check r) = true) ∧
      (ok = true → b'.device_status = PyVal.pstr status ∧ st' = st) ∧
      (ok = false → b' = b ∧ st' = st ∧
        VeSyncBaseDevice.is_on b' = VeSyncBaseDevice.is_on b)) ∧
    (∀ (b : VeSyncBaseDevice) (r : Option PyVal),
      VeSyncWallSwitch.turn_on b r = VeSyncWallSwitch.turn b STATUS_ON r ∧
      VeSyncWallSwitch.turn_off b r = VeSyncWallSwitch.turn b STATUS_OFF r) := by
  refine ⟨?_, ?_, fun b r => ⟨rfl, rfl⟩⟩
  · intro b b' status r ok n hs h
    unfold VeSyncWallSwitch.turn at h
    rw [if_neg (by rcases hs with hs | hs <;> subst hs <;> decide)] at h
    by_cases hok : (r.isSome && code_check r) = true
    · rw [if_pos hok] at h
      simp only [Prod.mk.injEq] at h
      obtain ⟨hb, hokk, hn⟩ := h
      subst hb
      subst hokk
      subst hn
      exact ⟨rfl, by simp [hok], fun _ => rfl, fun hc => Bool.noConfusion hc⟩
    · rw [if_neg hok] at h
      simp only [Prod.mk.injEq] at h
      obtain ⟨hb, hokk, hn⟩ := h
      subst hb
      subst hokk
      subst hn
      refine ⟨rfl, ?_, fun hc => Bool.noConfusion hc, fun _ => ⟨rfl, rfl⟩⟩
      simp only [Bool.not_eq_true] at hok
      simp [hok]
  · intro b b' st st' status r ok n hs h
    unfold VeSyncDimmerSwitch.turn at h
    rw [if_neg (by rcases hs with hs | hs <;> subst hs <;> decide)] at h
    by_cases hok : (r.isSome && code_check r) = true
    · rw [if_pos hok] at h
      simp only [Prod.mk.injEq] at h
      obtain ⟨⟨hb, hst⟩, hokk, hn⟩ := h
      subst hb
      subst hst
      subst hokk
      subst hn
      exact ⟨rfl, by simp [hok], fun _ => ⟨rfl, rfl⟩, fun hc => Bool.noConfusion hc⟩
    · rw [if_neg hok] at h
      simp only [Prod.mk.injEq] at h
      obtain ⟨⟨hb, hst⟩, hokk, hn⟩ := h
      subst hb
      subst hst
      subst hokk
      subst hn
      refine ⟨rfl, ?_, fun hc => Bool.noConfusion hc, fun _ => ⟨rfl, rfl, rfl⟩⟩
      simp only [Bool.not_eq_true] at hok
      simp [hok]

/-- C7 witness: the wall-switch statement instantiated at the concrete
device `bA` with a failed request (`none` response). -/
theorem C7_turn_updates_cache_only_on_success_witness :
    VeSyncWallSwitch.turn bA STATUS_ON none = (bA, false, 1) ∧
    (1 = 1 ∧ (false = true ↔ ((none : Option PyVal).isSome && code_check none) = true) ∧
     (false = true → bA.device_status = PyVal.pstr STATUS_ON) ∧
     (false = false → bA = bA ∧ VeSyncBaseDevice.is_on bA = VeSyncBaseDevice.is_on bA)) :=
  ⟨rfl, C7_turn_updates_cache_only_on_success.1 bA bA STATUS_ON none false 1
    (Or.inl rfl) rfl⟩

/-- C8: the claim says out-of-range brightness values (0, -5, 500) are
rejected before any network call.  The source's guard is the disjunction
`brightness > 0 or brightness <= 100`, which every integer satisfies, so
`set_brightness` issues the HTTP request (count 1) for each of these values
and on a confirmed success caches the out-of-range brightness and returns
true. -/
theorem C8_out_of_range_brightness_not_rejected :
    VeSyncDimmerSwitch.set_brightness bA initDimmerState 500 (some okResp) =
      ((bA, { initDimmerState with brightness := PyVal.pint 500 }), true, 1) ∧
    VeSyncDimmerSwitch.set_brightness bA initDimmerState 0 (some okResp) =
      ((bA, { initDimmerState with brightness := PyVal.pint 0 }), true, 1) ∧
    VeSyncDimmerSwitch.set_brightness bA initDimmerState (-5) (some okResp) =
      ((bA, { initDimmerState with brightness := PyVal.pint (-5) }), true, 1) :=
  ⟨rfl, rfl, rfl⟩

/-- C9: `login` rejects an empty or non-string username or password before
issuing any request and returns false; with valid credentials, a response
passing the code check and carrying a `result` mapping sets the token,
account id and country code, flips `enabled`, and returns true after
exactly one request; while the manager is not enabled, `get_devices` and
`update` perform no device-list fetch. -/
theorem C9_login_validation_and_gating :
    (∀ (m : Manager) (r : Option PyVal),
      m.username = none ∨ m.username = some "" →
      login m r = some (m, false, 0)) ∧
    (∀ (m : Manager) (r : Option PyVal) (su : String),
      m.username = some su → su.length ≠ 0 →
      m.password = none ∨ m.password = some "" →
      login m r = some (m, false, 0)) ∧
    (∀ (m : Manager) (d res : PyDict) (su sp : String),
      m.username = some su → su.length ≠ 0 →
      m.password = some sp → sp.length ≠ 0 →
      code_check (some (PyVal.pdict d)) = true →
      PyDict.find d "result" = some (PyVal.pdict res) →
      login m (some (PyVal.pdict d)) =
        some ({ m with token := PyDict.get res "token"
                       account_id := PyDict.get res "accountID"
                       country_code := PyDict.get res "countryCode"
                       enabled := true }, true, 1)) ∧
    (∀ (t : FamilyTables) (m : Manager) (r : Option PyVal),
      m.enabled = false → get_devices t m r = some (m, false, 0)) ∧
    (∀ (t : FamilyTables) (m : Manager) (tc te : Int) (r : Option PyVal)
       (rs : Nat → Option PyVal),
      m.enabled = false → update t m tc te r rs = some (m, 0)) := by
  refine ⟨?_, ?_, ?_, ?_, ?_⟩
  · intro m r hu
    unfold login
    rcases hu with hu | hu <;> rw [hu] <;> simp
  · intro m r su hsu hlen hp
    unfold login
    rw [hsu]
    have hpos : (0 : Nat) < su.length := Nat.pos_of_ne_zero hlen
    rcases hp with hp | hp <;> rw [hp] <;> simp [hpos]
  · intro m d res su sp hsu hsulen hsp hsplen hcode hres
    unfold login
    rw [hsu, hsp]
    have h1 : (0 : Nat) < su.length := Nat.pos_of_ne_zero hsulen
    have h2 : (0 : Nat) < sp.length := Nat.pos_of_ne_zero hsplen
    have hhas : PyDict.hasKey d "result" = true := by
      unfold PyDict.hasKey
      rw [hres]
      rfl
    simp [h1, h2, hcode, hhas, hres]
  · intro t m r h
    unfold get_devices
    rw [h]
    simp
  · intro t m tc te r rs h
    unfold update
    split
    · rw [h]
      simp
    · rfl

/-- A manager with a missing (non-string) username. -/
def mNoUser : Manager :=
  { username := none, password := some "secret", token := PyVal.pnone,
    account_id := PyVal.pnone, country_code := PyVal.pnone, enabled := false,
    update_interval := API_RATE_LIMIT, last_update_ts := none, device_list := [] }

/-- A manager with valid credentials, not yet logged in. -/
def mCreds : Manager := { mNoUser with username := some "user" }

/-- The `result` member of a successful login response. -/
def loginRes : PyDict :=
  [("token", PyVal.pstr "tok"), ("accountID", PyVal.pstr "acct"),
   ("countryCode", PyVal.pstr "US")]

/-- A successful login response. -/
def loginRespD : PyDict := [("code", PyVal.pint 0), ("result", PyVal.pdict loginRes)]

/-- C9 witness: the statement instantiated at concrete managers and a
concrete login response; the resulting session fields hold the response's
token and account id and the manager is enabled. -/
theorem C9_login_validation_and_gating_witness :
    login mNoUser none = some (mNoUser, false, 0) ∧
    login mCreds (some (PyVal.pdict loginRespD)) =
      some ({ mCreds with
        token := PyDict.get loginRes "token"
        account_id := PyDict.get loginRes "accountID"
        country_code := PyDict.get loginRes "countryCode"
        enabled := true }, true, 1) ∧
    PyDict.get loginRes "token" = PyVal.pstr "tok" ∧
    PyDict.get loginRes "accountID" = PyVal.pstr "acct" ∧
    get_devices tbl0 mCreds none = some (mCreds, false, 0) ∧
    update tbl0 mCreds 0 0 none (fun _ => none) = some (mCreds, 0) :=
  ⟨C9_login_validation_and_gating.1 mNoUser none (Or.inl rfl),
   C9_login_validation_and_gating.2.2.1 mCreds loginRespD loginRes "user" "secret"
     rfl (by decide) rfl (by decide) rfl rfl,
   rfl, rfl,
   C9_login_validation_and_gating.2.2.2.1 tbl0 mCreds none rfl,
   C9_login_validation_and_gating.2.2.2.2 tbl0 mCreds 0 0 none (fun _ => none) rfl⟩

/-- C10: a successful `indicator_light_turn` with a valid status writes the
device's main `device_status` field and leaves the cached
`_indicator_light` field (and the rest of the dimmer state) unchanged; on a
failed request, or on an invalid status argument (with no request at all),
it returns false and mutates neither field. -/
theorem C10_indicator_light_turn_frame :
    (∀ (b b' : VeSyncBaseDevice) (st st' : DimmerState) (status : String)
       (r : Option PyVal) (ok : Bool) (n : Nat),
      status = STATUS_ON ∨ status = STATUS_OFF →
      VeSyncDimmerSwitch.indicator_light_turn b st status r = ((b', st'), ok, n) →
      (ok = true ↔ (r.isSome && code_check r) = true) ∧
      (ok = true → b' = { b with device_status := PyVal.pstr status } ∧ st' = st ∧
        st'.indicator_light = st.indicator_light) ∧
      (ok = false → b' = b ∧ st' = st)) ∧
    (∀ (b : VeSyncBaseDevice) (st : DimmerState) (status : String) (r : Option PyVal),
      status ≠ STATUS_ON → status ≠ STATUS_OFF →
      VeSyncDimmerSwitch.indicator_light_turn b st status r = ((b, st), false, 0)) := by
  constructor
  · intro b b' st st' status r ok n hs h
    unfold VeSyncDimmerSwitch.indicator_light_turn at h
    rw [if_neg (by rcases hs with hs | hs <;> subst hs <;> decide)] at h
    by_cases hok : (r.isSome && code_check r) = true
    · rw [if_pos hok] at h
      simp only [Prod.mk.injEq] at h
      obtain ⟨⟨hb, hst⟩, hokk, hn⟩ := h
      subst hb
      subst hst
      subst hokk
      subst hn
      exact ⟨by simp [hok], fun _ => ⟨rfl, rfl, rfl⟩, fun hc => Bool.noConfusion hc⟩
    · rw [if_neg hok] at h
      simp only [Prod.mk.injEq] at h
      obtain ⟨⟨hb, hst⟩, hokk, hn⟩ := h
      subst hb
      subst hst
      subst hokk
      subst hn
      refine ⟨?_, fun hc => Bool.noConfusion hc, fun _ => ⟨rfl, rfl⟩⟩
      simp only [Bool.not_eq_true] at hok
      simp [hok]
  · intro b st status r hne1 hne2
    have hcond : (status != STATUS_ON && status != STATUS_OFF) = true := by
      simp [hne1, hne2]
    unfold VeSyncDimmerSwitch.indicator_light_turn
    rw [if_pos hcond]

/-- C10 witness: the frame statement instantiated at the dimmer built from
`recA` with a successful response. -/
theorem C10_indicator_light_turn_frame_witness :
    VeSyncDimmerSwitch.indicator_light_turn bA initDimmerState STATUS_ON (some okResp) =
      (({ bA with device_status := PyVal.pstr STATUS_ON }, initDimmerState), true, 1) ∧
    ({ bA with device_status := PyVal.pstr STATUS_ON } =
        { bA with device_status := PyVal.pstr STATUS_ON } ∧
      initDimmerState = initDimmerState ∧
      initDimmerState.indicator_light = initDimmerState.indicator_light) :=
  ⟨rfl,
   (C10_indicator_light_turn_frame.1 bA { bA with device_status := PyVal.pstr STATUS_ON }
     initDimmerState initDimmerState STATUS_ON (some okResp) true 1
     (Or.inl rfl) rfl).2.1 rfl⟩

/-- An enabled manager with the default 30-second interval and no previous
update. -/
def m0 : Manager :=
  { username := some "user", password := some "secret", token := PyVal.pstr "tok",
    account_id := PyVal.pstr "acct", country_code := PyVal.pstr "US", enabled := true,
    update_interval := API_RATE_LIMIT, last_update_ts := none, device_list := [] }

/-- A per-device response oracle for failed detail calls. -/
def noDetailResp : Nat → Option PyVal := fun _ => none

/-- The manager state after the first `update` call of the C4 witness. -/
def m0after1 : Manager :=
  ((update tbl0 m0 100 101 none noDetailResp).getD (m0, 0)).1

/-- C4 witness: the throttling statement instantiated at `m0`, with the
first call fetching at time 100-101 and the second call checked at time
120, inside the default 30-second interval. -/
theorem C4_second_update_within_interval_does_not_refetch_witness :
    m0.enabled = true ∧
    update tbl0 m0 100 101 none noDetailResp = some (m0after1, 1) ∧
    update tbl0 m0after1 120 121 none noDetailResp = some (m0after1, 0) ∧
    (120 : Int) - 101 ≤ m0.update_interval ∧
    1 + 0 ≤ 1 :=
  ⟨rfl, rfl, rfl, by decide,
   C4_second_update_within_interval_does_not_refetch tbl0 m0 m0after1 m0after1
     100 101 120 121 none none noDetailResp noDetailResp 1 0 rfl rfl rfl (by decide)⟩
